import Mathlib

/-!
Shallow embedding of `src/main.cpp` (a periodic LoRaWAN telemetry uplink
controller built on mbed-os).  The external collaborators — the LoRaWAN stack
(`lorawan.send`, `lorawan.receive`, `lorawan.initialize`, ...), the sensor
board, and the CayenneLPP payload encoder — are modelled as inputs: their
return values are parameters of the embedded functions.  The mbed `EventQueue`
is modelled as the list of pending scheduled callbacks (the only callback the
program ever schedules is `send_message`) together with the break flag set by
`EventQueue::break_dispatch`.
-/

namespace LoraApp

/-- Uplink interval in milliseconds (`#define TX_INTERVAL 10000`). -/
def TX_INTERVAL : Nat := 10000

/-- Duty-cycle retry backoff in milliseconds (the literal `3000` passed to
`ev_queue.call_in` in `send_message`). -/
def DUTY_CYCLE_BACKOFF : Nat := 3000

/-- Status code of the external LoRaWAN stack signalling a duty-cycle
"would block" condition.  The value is from the external mbed header
`lorawan_types.h` (not part of this repository); all that matters here is
that it is negative and distinguished from the other codes. -/
def LORAWAN_STATUS_WOULD_BLOCK : Int := -1001

/-- Success status of the external LoRaWAN stack (`LORAWAN_STATUS_OK = 0`). -/
def LORAWAN_STATUS_OK : Int := 0

/-- Status returned by `lorawan.connect` when the join procedure has been
started asynchronously; from the external mbed header. -/
def LORAWAN_STATUS_CONNECT_IN_PROGRESS : Int := -1010

/-- Event codes of `lorawan_event_t`, from the external mbed header
`lorawan_types.h`: consecutive enum values starting at `CONNECTED = 0`. -/
def CONNECTED : Nat := 0

/-- `DISCONNECTED` event code. -/
def DISCONNECTED : Nat := 1

/-- `TX_DONE` event code. -/
def TX_DONE : Nat := 2

/-- `TX_TIMEOUT` event code. -/
def TX_TIMEOUT : Nat := 3

/-- `TX_ERROR` event code. -/
def TX_ERROR : Nat := 4

/-- `TX_CRYPTO_ERROR` event code. -/
def TX_CRYPTO_ERROR : Nat := 5

/-- `TX_SCHEDULING_ERROR` event code. -/
def TX_SCHEDULING_ERROR : Nat := 6

/-- `RX_DONE` event code. -/
def RX_DONE : Nat := 7

/-- `RX_TIMEOUT` event code. -/
def RX_TIMEOUT : Nat := 8

/-- `RX_ERROR` event code. -/
def RX_ERROR : Nat := 9

/-- `JOIN_FAILURE` event code. -/
def JOIN_FAILURE : Nat := 10

/-- `UPLINK_REQUIRED` event code. -/
def UPLINK_REQUIRED : Nat := 11

/-- Observable outputs of the program: each constructor corresponds to one
`printf` site (or family of sites) in `main.cpp`, carrying the data that the
format string interpolates. -/
inductive Obs where
  | loraInitFailed
  | stackInitialized
  | retriesFailed
  | adrFailed
  | adrDisabled
  | connectionInProgress
  | connectionError (code : Int)
  | connectionSuccessful
  | disconnectedMsg
  | txDoneMsg
  | transmissionError (event : Nat)
  | rxDoneMsg
  | receptionError (event : Nat)
  | joinFailureMsg
  | uplinkRequiredMsg
  | dutyCycleViolation
  | sendError (code : Int)
  | bytesScheduled (count : Int)
  | rxData (bytes : List Nat)
  | receiveError (code : Int)
  deriving DecidableEq, Repr

/-- The mbed `EventQueue` as the program uses it: the pending one-shot timed
callbacks (every callback this program schedules is `send_message`, so a
pending entry is recorded as its delay in milliseconds, in scheduling order)
and the flag set by `break_dispatch`. -/
structure EvQueue where
  pending : List Nat
  broken : Bool
  deriving DecidableEq, Repr

/-- `EventQueue::call_in(delay, cb)`: appends a new one-shot timed event.
The mbed call never cancels or replaces an existing pending event. -/
def EvQueue.call_in (q : EvQueue) (delay : Nat) : EvQueue :=
  { q with pending := q.pending ++ [delay] }

/-- `EventQueue::break_dispatch()`: requests that `dispatch_forever` return
once the currently running callback completes. -/
def EvQueue.break_dispatch (q : EvQueue) : EvQueue :=
  { q with broken := true }

/-- One invocation of `send_message` (`main.cpp`, lines 112-145).  The
temperature read and the CayenneLPP encoding only involve external
collaborators and do not influence the control flow; `retcode` is the
`int16_t` returned by the external `lorawan.send`.  Returns the updated event
queue and the observable output of this invocation. -/
def send_message (retcode : Int) (q : EvQueue) : EvQueue × List Obs :=
  if retcode < 0 then
    let msg := if retcode = LORAWAN_STATUS_WOULD_BLOCK then Obs.dutyCycleViolation
               else Obs.sendError retcode
    if retcode = LORAWAN_STATUS_WOULD_BLOCK then
      (q.call_in DUTY_CYCLE_BACKOFF, [msg])
    else
      (q.call_in TX_INTERVAL, [msg])
  else
    (q.call_in TX_INTERVAL, [Obs.bytesScheduled retcode])

/-- The delay installed by one `send_message` invocation, as a function of
the `lorawan.send` return code: 3000 ms on a duty-cycle "would block"
failure, the full `TX_INTERVAL` otherwise. -/
def sendDelay (retcode : Int) : Nat :=
  if retcode = LORAWAN_STATUS_WOULD_BLOCK then DUTY_CYCLE_BACKOFF else TX_INTERVAL

/-- The single observable line printed by one `send_message` invocation. -/
def sendOutcome (retcode : Int) : Obs :=
  if retcode < 0 then
    if retcode = LORAWAN_STATUS_WOULD_BLOCK then Obs.dutyCycleViolation
    else Obs.sendError retcode
  else Obs.bytesScheduled retcode

/-- Modelled from the spec: `lorawan.receive(port, buffer, bufSize, flags)`
is external to this repository.  Its contract ("read up to a fixed-size
buffer") is that it fills the caller's buffer with at most `bufSize` bytes of
the pending downlink and returns the count of bytes read, or a negative error
code.  `downlink` is the stack-side input: a pending payload or an error. -/
def lorawan_receive (bufSize : Nat) (downlink : Except Int (List Nat)) :
    Int × List Nat :=
  match downlink with
  | Except.error e => (e, [])
  | Except.ok bytes => (((bytes.take bufSize).length : Nat), bytes.take bufSize)

/-- One invocation of `receive_message` (`main.cpp`, lines 150-167): a 50-byte
buffer is passed to `lorawan.receive`; on a negative return the error is
logged and the function returns, otherwise the first `retcode` bytes of the
buffer are dumped. -/
def receive_message (downlink : Except Int (List Nat)) (q : EvQueue) :
    EvQueue × List Obs :=
  let r := lorawan_receive 50 downlink
  if r.1 < 0 then
    (q, [Obs.receiveError r.1])
  else
    (q, [Obs.rxData (r.2.take r.1.toNat)])

/-- A C string literal converted to `bool`: the array decays to a non-null
pointer, which converts to `true`, whatever the characters are. -/
def cStringTruthy (_s : String) : Bool := true

/-- The external mbed macro `MBED_ASSERT cond` halts the program precisely
when `cond` evaluates to false; this function returns whether the assertion
fires. -/
def MBED_ASSERT_fires (cond : Bool) : Bool := !cond

/-- The inputs an event-handler invocation may consume from the external
stack: the next `lorawan.send` return code and the pending downlink. -/
structure World where
  sendRet : Int
  downlink : Except Int (List Nat)
  deriving Repr

/-- Result of one `lora_event_handler` invocation: the updated event queue,
the observable output, and whether the handler aborted the program. -/
structure HandlerResult where
  queue : EvQueue
  out : List Obs
  aborted : Bool
  deriving DecidableEq, Repr

/-- `lora_event_handler` (`main.cpp`, lines 172-210), the switch over the
event code.  The default branch is `MBED_ASSERT("Unknown Event")`: it asserts
the string literal itself, which is a non-null pointer and hence true, so the
assertion can never fire. -/
def lora_event_handler (w : World) (event : Nat) (q : EvQueue) : HandlerResult :=
  if event = CONNECTED then
    { queue := q.call_in TX_INTERVAL, out := [Obs.connectionSuccessful],
      aborted := false }
  else if event = DISCONNECTED then
    { queue := q.break_dispatch, out := [Obs.disconnectedMsg], aborted := false }
  else if event = TX_DONE then
    { queue := q, out := [Obs.txDoneMsg], aborted := false }
  else if event = TX_TIMEOUT ∨ event = TX_ERROR ∨ event = TX_CRYPTO_ERROR ∨
      event = TX_SCHEDULING_ERROR then
    { queue := q, out := [Obs.transmissionError event], aborted := false }
  else if event = RX_DONE then
    let r := receive_message w.downlink q
    { queue := r.1, out := Obs.rxDoneMsg :: r.2, aborted := false }
  else if event = RX_TIMEOUT ∨ event = RX_ERROR then
    { queue := q, out := [Obs.receptionError event], aborted := false }
  else if event = JOIN_FAILURE then
    { queue := q, out := [Obs.joinFailureMsg], aborted := false }
  else if event = UPLINK_REQUIRED then
    let r := send_message w.sendRet q
    { queue := r.1, out := Obs.uplinkRequiredMsg :: r.2, aborted := false }
  else
    { queue := q, out := [],
      aborted := MBED_ASSERT_fires (cStringTruthy "Unknown Event") }

/-- An item the event dispatcher may process next: either an asynchronous
network event delivered to `lora_event_handler` (with the external inputs
that invocation consumes), or the expiry of the oldest pending timer. -/
inductive Arrival where
  | netEvent (w : World) (event : Nat)
  | timerExpiry (w : World)
  deriving Repr

/-- Whether an arrival is the `DISCONNECTED` network event. -/
def Arrival.isDisconnect : Arrival → Bool
  | Arrival.netEvent _ e => e == DISCONNECTED
  | Arrival.timerExpiry _ => false

/-- Expiry of the oldest pending timer: the entry is removed from the queue
and its callback runs.  Every scheduled callback in this program is
`send_message`.  With no pending timer nothing happens. -/
def fire_timer (w : World) (q : EvQueue) : EvQueue × List Obs :=
  match q.pending with
  | [] => (q, [])
  | _ :: rest => send_message w.sendRet { q with pending := rest }

/-- Process one arrival (one run-to-completion callback). -/
def run_arrival (a : Arrival) (q : EvQueue) : EvQueue × List Obs :=
  match a with
  | Arrival.netEvent w e =>
    let r := lora_event_handler w e q
    (r.queue, r.out)
  | Arrival.timerExpiry w => fire_timer w q

/-- The cooperative run loop (`EventQueue::dispatch_forever`): arrivals are
processed strictly in order, each callback running to completion; once
`break_dispatch` has been requested, the loop returns and no further
callback runs. -/
def dispatch_run (arrivals : List Arrival) (q : EvQueue) : EvQueue × List Obs :=
  match arrivals with
  | [] => (q, [])
  | a :: rest =>
    if q.broken then (q, [])
    else
      let r := run_arrival a q
      let r2 := dispatch_run rest r.1
      (r2.1, r.2 ++ r2.2)

/-- A sequence of `UPLINK_REQUIRED` events delivered to the handler in
immediate succession, one per world in `ws`. -/
def handle_uplinks (ws : List World) (q : EvQueue) : EvQueue × List Obs :=
  match ws with
  | [] => (q, [])
  | w :: rest =>
    let r := lora_event_handler w UPLINK_REQUIRED q
    let r2 := handle_uplinks rest r.queue
    (r2.1, r.out ++ r2.2)

/-- Whether an observable line is the outcome of a `send_message` invocation
(exactly one such line is printed per invocation). -/
def isSendOutcome : Obs → Bool
  | Obs.dutyCycleViolation => true
  | Obs.sendError _ => true
  | Obs.bytesScheduled _ => true
  | _ => false

/-- Return codes of the external stack calls made during startup, in program
order.  `lorawan.add_app_callbacks` does return a status, but `main` ignores
it (`main.cpp`, line 72), so the field is carried for completeness. -/
structure StartupWorld where
  initStatus : Int
  addCallbacksStatus : Int
  retriesStatus : Int
  adrStatus : Int
  connectStatus : Int
  deriving DecidableEq, Repr

/-- How `main` ends: an early `return -1`, or reaching
`ev_queue.dispatch_forever()`. -/
inductive MainResult where
  | exitWith (code : Int)
  | dispatchForever
  deriving DecidableEq, Repr

/-- `main` (`main.cpp`, lines 54-107) up to the point where it either returns
an error code or enters the run loop.  Each external call's return code comes
from `w`; note that the return value of `lorawan.add_app_callbacks` is never
examined. -/
def main (w : StartupWorld) : MainResult × List Obs :=
  if w.initStatus ≠ LORAWAN_STATUS_OK then
    (MainResult.exitWith (-1), [Obs.loraInitFailed])
  else if w.retriesStatus ≠ LORAWAN_STATUS_OK then
    (MainResult.exitWith (-1), [Obs.stackInitialized, Obs.retriesFailed])
  else if w.adrStatus ≠ LORAWAN_STATUS_OK then
    (MainResult.exitWith (-1), [Obs.stackInitialized, Obs.adrFailed])
  else if w.connectStatus = LORAWAN_STATUS_OK ∨
      w.connectStatus = LORAWAN_STATUS_CONNECT_IN_PROGRESS then
    (MainResult.dispatchForever,
      [Obs.stackInitialized, Obs.adrDisabled, Obs.connectionInProgress])
  else
    (MainResult.exitWith (-1),
      [Obs.stackInitialized, Obs.adrDisabled, Obs.connectionError w.connectStatus])

/-! Shared helper lemmas about the embedded operations. -/

/-- The queue produced by `send_message`: one new pending entry with the
policy delay is appended, the break flag is untouched. -/
theorem send_message_fst (r : Int) (q : EvQueue) :
    (send_message r q).1
      = { pending := q.pending ++ [sendDelay r], broken := q.broken } := by
  simp only [send_message, sendDelay, EvQueue.call_in]
  split_ifs with h1 h2 h3
  · rfl
  · rfl
  · simp only [LORAWAN_STATUS_WOULD_BLOCK] at h3
    omega
  · rfl

/-- The output of `send_message` is the single policy outcome line. -/
theorem send_message_snd (r : Int) (q : EvQueue) :
    (send_message r q).2 = [sendOutcome r] := by
  simp only [send_message, sendOutcome]
  split_ifs <;> rfl

/-- `receive_message` never touches the event queue. -/
theorem receive_message_fst (d : Except Int (List Nat)) (q : EvQueue) :
    (receive_message d q).1 = q := by
  simp only [receive_message]
  split_ifs <;> rfl

/-- `receive_message` on a successful read dumps exactly the bytes the stack
delivered into the 50-byte buffer. -/
theorem receive_message_ok (bytes : List Nat) (q : EvQueue) :
    receive_message (Except.ok bytes) q = (q, [Obs.rxData (bytes.take 50)]) := by
  simp only [receive_message, lorawan_receive]
  rw [if_neg (by simp)]
  rw [Int.toNat_natCast, List.take_length]

/-- `receive_message` on a failed read logs the code and does nothing else. -/
theorem receive_message_error (e : Int) (q : EvQueue) (he : e < 0) :
    receive_message (Except.error e) q = (q, [Obs.receiveError e]) := by
  simp only [receive_message, lorawan_receive]
  rw [if_pos he]

/-- The `UPLINK_REQUIRED` branch of the handler calls `send_message`
synchronously. -/
theorem lora_event_handler_uplink (w : World) (q : EvQueue) :
    lora_event_handler w UPLINK_REQUIRED q
      = ⟨(send_message w.sendRet q).1,
         Obs.uplinkRequiredMsg :: (send_message w.sendRet q).2, false⟩ := rfl

/-- The `RX_DONE` branch of the handler calls `receive_message`
synchronously. -/
theorem lora_event_handler_rx (w : World) (q : EvQueue) :
    lora_event_handler w RX_DONE q
      = ⟨(receive_message w.downlink q).1,
         Obs.rxDoneMsg :: (receive_message w.downlink q).2, false⟩ := rfl

/-- Each `sendOutcome` line is recognised as a send outcome. -/
theorem isSendOutcome_sendOutcome (r : Int) :
    isSendOutcome (sendOutcome r) = true := by
  simp only [sendOutcome, isSendOutcome]
  split_ifs <;> rfl

/-! C1.  The claim states that at most one pending scheduled send callback
exists at any time, a new schedule cancelling or replacing any prior pending
send timer.  The mbed `call_in` only appends, and `send_message` is also
invoked synchronously by the `UPLINK_REQUIRED` branch while a timer from
`CONNECTED` (or a previous send) is still pending, so two outstanding send
timers do coexist. -/

/-- C1 (counterexample): starting from an empty queue, handling `CONNECTED`
and then `UPLINK_REQUIRED` (whose immediate send succeeds with 12 bytes)
leaves two send timers pending simultaneously, refuting the claim that two
outstanding send timers never coexist. -/
theorem two_send_timers_coexist :
    ((lora_event_handler ⟨12, Except.ok []⟩ UPLINK_REQUIRED
        (lora_event_handler ⟨12, Except.ok []⟩ CONNECTED
          ⟨[], false⟩).queue).queue).pending
      = [TX_INTERVAL, TX_INTERVAL] := rfl

/-- C1 (amended): scheduling a new send never cancels a previously pending
send timer: every `send_message` invocation, on every path, and every
`CONNECTED` handling append exactly one pending send entry while keeping all
previously pending ones, so outstanding send timers accumulate rather than
replace each other. -/
theorem schedule_appends_never_cancels (r : Int) (w : World) (q : EvQueue) :
    (send_message r q).1.pending = q.pending ++ [sendDelay r] ∧
    (lora_event_handler w CONNECTED q).queue.pending
      = q.pending ++ [TX_INTERVAL] := by
  refine ⟨?_, rfl⟩
  rw [send_message_fst]

/-! C2.  Failed-send retry policy. -/

/-- C2: every failed `send_now` (negative return) reschedules exactly one
retry — after the 3000 ms backoff when the failure is the duty-cycle
"would block" code, after the full 10000 ms uplink interval for any other
negative code — emits the matching observable line (the error line carrying
the failure code in the non-would-block case), and the backoff is strictly
shorter than the uplink interval. -/
theorem failed_send_retry_policy (r : Int) (q : EvQueue) (h : r < 0) :
    (send_message r q).1.pending
        = q.pending ++ [if r = LORAWAN_STATUS_WOULD_BLOCK then DUTY_CYCLE_BACKOFF
                        else TX_INTERVAL] ∧
    (send_message r q).2
        = [if r = LORAWAN_STATUS_WOULD_BLOCK then Obs.dutyCycleViolation
           else Obs.sendError r] ∧
    DUTY_CYCLE_BACKOFF < TX_INTERVAL := by
  refine ⟨?_, ?_, by decide⟩
  · simp only [send_message_fst, sendDelay]
  · rw [send_message_snd]
    simp only [sendOutcome, if_pos h]

/-- C2 (witness): the duty-cycle would-block code `-1001` on an empty queue. -/
theorem failed_send_retry_policy_witness :
    (send_message (-1001) ⟨[], false⟩).1.pending
        = [] ++ [if (-1001 : Int) = LORAWAN_STATUS_WOULD_BLOCK then
                   DUTY_CYCLE_BACKOFF else TX_INTERVAL] ∧
    (send_message (-1001) ⟨[], false⟩).2
        = [if (-1001 : Int) = LORAWAN_STATUS_WOULD_BLOCK then
             Obs.dutyCycleViolation else Obs.sendError (-1001)] ∧
    DUTY_CYCLE_BACKOFF < TX_INTERVAL :=
  failed_send_retry_policy (-1001) ⟨[], false⟩ (by decide)

/-! C3.  Connected event and successful sends schedule the full interval. -/

/-- C3: handling `CONNECTED` schedules the first send after the fixed
10000 ms uplink interval, and every successful `send_now` (non-negative
return) reschedules the next send after that same interval and emits the
"bytes scheduled" line carrying the byte count returned by `lorawan.send`. -/
theorem connected_and_success_schedule (r : Int) (w : World) (q : EvQueue)
    (h : 0 ≤ r) :
    (lora_event_handler w CONNECTED q).queue.pending
        = q.pending ++ [TX_INTERVAL] ∧
    (send_message r q).1.pending = q.pending ++ [TX_INTERVAL] ∧
    (send_message r q).2 = [Obs.bytesScheduled r] := by
  refine ⟨rfl, ?_, ?_⟩
  · rw [send_message_fst]
    have hd : sendDelay r = TX_INTERVAL := by
      simp only [sendDelay, LORAWAN_STATUS_WOULD_BLOCK]
      rw [if_neg (by omega)]
    rw [hd]
  · rw [send_message_snd]
    simp only [sendOutcome]
    rw [if_neg (by omega)]

/-- C3 (witness): a successful send of 12 bytes on an empty queue. -/
theorem connected_and_success_schedule_witness :
    (lora_event_handler ⟨12, Except.ok []⟩ CONNECTED ⟨[], false⟩).queue.pending
        = [] ++ [TX_INTERVAL] ∧
    (send_message 12 ⟨[], false⟩).1.pending = [] ++ [TX_INTERVAL] ∧
    (send_message 12 ⟨[], false⟩).2 = [Obs.bytesScheduled 12] :=
  connected_and_success_schedule 12 ⟨12, Except.ok []⟩ ⟨[], false⟩ (by decide)

/-! Helper lemmas: the break flag is only ever set by the `DISCONNECTED`
branch of the handler. -/

/-- Handling any event other than `DISCONNECTED` leaves the break flag as it
was. -/
theorem lora_event_handler_broken (w : World) (e : Nat) (q : EvQueue)
    (h : e ≠ DISCONNECTED) :
    (lora_event_handler w e q).queue.broken = q.broken := by
  unfold lora_event_handler
  split_ifs with h1 h2 h3 h4 h5 h6 h7
  · rfl
  · rfl
  · rfl
  · show (receive_message w.downlink q).1.broken = q.broken
    rw [receive_message_fst]
  · rfl
  · rfl
  · show (send_message w.sendRet q).1.broken = q.broken
    rw [send_message_fst]
  · rfl

/-- Firing a timer (which runs `send_message`) leaves the break flag as it
was. -/
theorem fire_timer_broken (w : World) (q : EvQueue) :
    (fire_timer w q).1.broken = q.broken := by
  rcases hq : q.pending with _ | ⟨d, rest⟩ <;>
    simp [fire_timer, hq, send_message_fst]

/-- Processing a non-`DISCONNECTED` arrival leaves the break flag as it
was. -/
theorem run_arrival_broken (a : Arrival) (q : EvQueue)
    (h : a.isDisconnect = false) :
    (run_arrival a q).1.broken = q.broken := by
  cases a with
  | netEvent w e =>
    simp only [Arrival.isDisconnect, beq_eq_false_iff_ne, ne_eq] at h
    exact lora_event_handler_broken w e q h
  | timerExpiry w => exact fire_timer_broken w q

/-- As long as no `DISCONNECTED` arrival is processed, the run loop keeps
going (the break flag stays clear). -/
theorem dispatch_run_broken (as : List Arrival) (q : EvQueue)
    (hq : q.broken = false) (h : as.all (fun a => !a.isDisconnect) = true) :
    (dispatch_run as q).1.broken = false := by
  induction as generalizing q with
  | nil => simpa [dispatch_run] using hq
  | cons a rest ih =>
    simp only [List.all_cons, Bool.and_eq_true, Bool.not_eq_true'] at h
    simp only [dispatch_run, hq, if_false, Bool.false_eq_true]
    exact ih (run_arrival a q).1 (by rw [run_arrival_broken a q h.1]; exact hq)
      (by simpa [List.all_eq_true] using h.2)

/-! C4.  Startup failure handling in `main`.  The claim lists callback
registration among the steps whose failure aborts startup, but `main` never
examines the return value of `lorawan.add_app_callbacks` (`main.cpp`,
line 72), so that step cannot abort anything. -/

/-- C4 (counterexample): a startup in which every checked step succeeds but
callback registration fails still reaches `dispatch_forever`, refuting the
claim that any failing startup step — callback registration included —
exits the process with a non-zero code. -/
theorem callback_registration_failure_not_fatal :
    (main ⟨0, -1003, 0, 0, 0⟩).1 = MainResult.dispatchForever := rfl

/-- C4 (amended): the process exits with the non-zero code -1, before the
run loop, exactly when stack initialization, confirmed-retry-count
configuration, ADR configuration, or the connect request fails (the return
value of callback registration is ignored, so its failure aborts nothing);
otherwise it reaches the run loop, which keeps running until a
`DISCONNECTED` event is processed. -/
theorem startup_failure_exit (w : StartupWorld) (as : List Arrival)
    (q : EvQueue) (hq : q.broken = false)
    (h : as.all (fun a => !a.isDisconnect) = true) :
    ((main w).1 = MainResult.exitWith (-1) ↔
      (w.initStatus ≠ LORAWAN_STATUS_OK ∨
       w.retriesStatus ≠ LORAWAN_STATUS_OK ∨
       w.adrStatus ≠ LORAWAN_STATUS_OK ∨
       (w.connectStatus ≠ LORAWAN_STATUS_OK ∧
        w.connectStatus ≠ LORAWAN_STATUS_CONNECT_IN_PROGRESS))) ∧
    ((main w).1 = MainResult.exitWith (-1) ∨
      (main w).1 = MainResult.dispatchForever) ∧
    (dispatch_run as q).1.broken = false := by
  refine ⟨?_, ?_, dispatch_run_broken as q hq h⟩
  · unfold main
    split_ifs with h1 h2 h3 h4 <;> simp_all [not_or]
    all_goals tauto
  · unfold main
    split_ifs <;> simp

/-- C4 (witness): stack initialization fails with code -1, the other steps
succeed; an empty arrival list on a fresh queue. -/
theorem startup_failure_exit_witness :
    ((main ⟨-1, 0, 0, 0, 0⟩).1 = MainResult.exitWith (-1) ↔
      ((-1 : Int) ≠ LORAWAN_STATUS_OK ∨
       (0 : Int) ≠ LORAWAN_STATUS_OK ∨
       (0 : Int) ≠ LORAWAN_STATUS_OK ∨
       ((0 : Int) ≠ LORAWAN_STATUS_OK ∧
        (0 : Int) ≠ LORAWAN_STATUS_CONNECT_IN_PROGRESS))) ∧
    ((main ⟨-1, 0, 0, 0, 0⟩).1 = MainResult.exitWith (-1) ∨
      (main ⟨-1, 0, 0, 0, 0⟩).1 = MainResult.dispatchForever) ∧
    (dispatch_run [] ⟨[], false⟩).1.broken = false :=
  startup_failure_exit ⟨-1, 0, 0, 0, 0⟩ [] ⟨[], false⟩ rfl rfl

/-! C5.  The claim states the default branch aborts on an unknown event.
The code's default branch is `MBED_ASSERT("Unknown Event")`: the asserted
expression is the string literal itself, a non-null pointer that converts to
true, so the assertion can never fire — the handler falls through without
aborting.  (The intent was plainly a failing assertion; asserting the
message string is the slip.) -/

/-- C5 (code evaluated at the failing input): delivering the out-of-range
event code 12 does not abort: no assertion fires, the handler returns
normally with the queue untouched and no output. -/
theorem unknown_event_no_abort :
    (lora_event_handler ⟨0, Except.ok []⟩ 12 ⟨[], false⟩).aborted = false ∧
    (lora_event_handler ⟨0, Except.ok []⟩ 12 ⟨[], false⟩).queue
      = ⟨[], false⟩ ∧
    (lora_event_handler ⟨0, Except.ok []⟩ 12 ⟨[], false⟩).out = [] :=
  ⟨rfl, rfl, rfl⟩

/-! C6.  `DISCONNECTED` stops the run loop. -/

/-- C6: handling `DISCONNECTED` sets the break flag while leaving the pending
timers untouched, and the run loop then processes nothing further: whatever
arrivals (timer expiries included) come next, no callback runs, no output is
produced and the state no longer changes — a pending send timer never fires
after the stop request. -/
theorem disconnect_stops_dispatch (w : World) (q : EvQueue)
    (as : List Arrival) :
    ((lora_event_handler w DISCONNECTED q).queue).broken = true ∧
    ((lora_event_handler w DISCONNECTED q).queue).pending = q.pending ∧
    dispatch_run as (lora_event_handler w DISCONNECTED q).queue
      = ((lora_event_handler w DISCONNECTED q).queue, []) := by
  refine ⟨rfl, rfl, ?_⟩
  cases as with
  | nil => rfl
  | cons a rest => rfl

/-! C7.  Repeated `UPLINK_REQUIRED` events are not deduplicated. -/

/-- The `uplinkRequiredMsg` status line is not a send outcome. -/
theorem isSendOutcome_uplinkMsg :
    isSendOutcome Obs.uplinkRequiredMsg = false := rfl

/-- Pending timers after n successive `UPLINK_REQUIRED` deliveries: one new
entry per delivery, each with the delay its own send result selects. -/
theorem handle_uplinks_pending (ws : List World) (q : EvQueue) :
    (handle_uplinks ws q).1.pending
      = q.pending ++ ws.map (fun w => sendDelay w.sendRet) := by
  induction ws generalizing q with
  | nil => simp [handle_uplinks]
  | cons w rest ih =>
    simp only [handle_uplinks, lora_event_handler_uplink]
    rw [ih, send_message_fst]
    simp

/-- Output of n successive `UPLINK_REQUIRED` deliveries: the status line and
the send outcome of each delivery, in order. -/
theorem handle_uplinks_out (ws : List World) (q : EvQueue) :
    (handle_uplinks ws q).2
      = ws.flatMap (fun w => [Obs.uplinkRequiredMsg, sendOutcome w.sendRet]) := by
  induction ws generalizing q with
  | nil => rfl
  | cons w rest ih =>
    simp only [handle_uplinks, lora_event_handler_uplink, send_message_snd]
    rw [ih]
    simp [List.flatMap_cons]

/-- C7: delivering n `UPLINK_REQUIRED` events in immediate succession
triggers exactly n immediate `send_now` executions — the output holds exactly
one send outcome per delivery, each invocation independently following the
success/failure policy (its own outcome line, its own policy delay appended),
with no deduplication. -/
theorem uplink_required_no_dedup (ws : List World) (q : EvQueue) :
    (handle_uplinks ws q).2.countP (fun o => isSendOutcome o) = ws.length ∧
    (handle_uplinks ws q).1.pending
        = q.pending ++ ws.map (fun w => sendDelay w.sendRet) ∧
    (handle_uplinks ws q).2
        = ws.flatMap (fun w => [Obs.uplinkRequiredMsg, sendOutcome w.sendRet]) := by
  refine ⟨?_, handle_uplinks_pending ws q, handle_uplinks_out ws q⟩
  rw [handle_uplinks_out]
  induction ws with
  | nil => rfl
  | cons w rest ih =>
    simp only [List.flatMap_cons, List.countP_append, List.countP_cons,
      List.countP_nil, isSendOutcome_sendOutcome, isSendOutcome_uplinkMsg,
      List.length_cons, ih]
    simp only [if_true, Bool.false_eq_true, if_false]
    omega

/-! C8.  ReceiveComplete handling. -/

/-- C8: on a `RX_DONE` (ReceiveComplete) event the handler reads into a
50-byte buffer, so at most 50 bytes are consumed; on a non-negative return it
dumps exactly the bytes the stack delivered (the "received" line), and on a
negative return it logs the failure code and leaves the queue untouched — no
retry is scheduled. -/
theorem receive_complete_reports (q : EvQueue) (bytes : List Nat) (e : Int)
    (he : e < 0) :
    (lora_event_handler ⟨0, Except.ok bytes⟩ RX_DONE q).out
        = [Obs.rxDoneMsg, Obs.rxData (bytes.take 50)] ∧
    (bytes.take 50).length ≤ 50 ∧
    (lora_event_handler ⟨0, Except.ok bytes⟩ RX_DONE q).queue = q ∧
    (lora_event_handler ⟨0, Except.error e⟩ RX_DONE q).out
        = [Obs.rxDoneMsg, Obs.receiveError e] ∧
    (lora_event_handler ⟨0, Except.error e⟩ RX_DONE q).queue = q := by
  refine ⟨?_, ?_, ?_, ?_, ?_⟩
  · rw [lora_event_handler_rx]
    simp [receive_message_ok]
  · simp [List.length_take]
  · rw [lora_event_handler_rx]
    simp [receive_message_fst]
  · rw [lora_event_handler_rx]
    simp [receive_message_error e q he]
  · rw [lora_event_handler_rx]
    simp [receive_message_fst]

/-- C8 (witness): the spec scenario — downlink bytes `[0x01, 0x02]` are
reported exactly; error code -1 is logged without a retry. -/
theorem receive_complete_reports_witness :
    (lora_event_handler ⟨0, Except.ok [1, 2]⟩ RX_DONE ⟨[], false⟩).out
        = [Obs.rxDoneMsg, Obs.rxData ([1, 2].take 50)] ∧
    (([1, 2] : List Nat).take 50).length ≤ 50 ∧
    (lora_event_handler ⟨0, Except.ok [1, 2]⟩ RX_DONE ⟨[], false⟩).queue
        = ⟨[], false⟩ ∧
    (lora_event_handler ⟨0, Except.error (-1)⟩ RX_DONE ⟨[], false⟩).out
        = [Obs.rxDoneMsg, Obs.receiveError (-1)] ∧
    (lora_event_handler ⟨0, Except.error (-1)⟩ RX_DONE ⟨[], false⟩).queue
        = ⟨[], false⟩ :=
  receive_complete_reports ⟨[], false⟩ [1, 2] (-1) (by decide)

/-! C9.  The send chain sustains itself on every path. -/

/-- C9: every `send_message` invocation appends exactly one future send
callback whatever the send outcome (success, would-block, or other failure),
and the expiry of a pending send timer — which consumes that entry and runs
`send_message` — always leaves a pending send behind, so once the first send
is scheduled the periodic chain never terminates on its own. -/
theorem send_chain_self_sustaining (r : Int) (w : World) (d : Nat)
    (ds : List Nat) (b : Bool) (q : EvQueue) :
    (send_message r q).1.pending = q.pending ++ [sendDelay r] ∧
    (fire_timer w ⟨d :: ds, b⟩).1.pending = ds ++ [sendDelay w.sendRet] ∧
    (fire_timer w ⟨d :: ds, b⟩).1.pending ≠ [] := by
  have hf : (fire_timer w ⟨d :: ds, b⟩).1.pending
      = ds ++ [sendDelay w.sendRet] := by
    show (send_message w.sendRet ⟨ds, b⟩).1.pending = ds ++ [sendDelay w.sendRet]
    rw [send_message_fst]
  refine ⟨?_, hf, ?_⟩
  · rw [send_message_fst]
  · rw [hf]
    simp

/-! C10.  Frame condition of the failing receive path. -/

/-- C10: when the receive fails (negative return), `receive_message` only
logs the failure code: the event queue — pending timers and break flag — is
returned unchanged, nothing is scheduled, and no send outcome appears in the
output. -/
theorem receive_error_frame (q : EvQueue) (e : Int) (he : e < 0) :
    receive_message (Except.error e) q = (q, [Obs.receiveError e]) ∧
    (receive_message (Except.error e) q).1.pending = q.pending ∧
    (receive_message (Except.error e) q).1.broken = q.broken ∧
    (receive_message (Except.error e) q).2.countP
        (fun o => isSendOutcome o) = 0 := by
  have h := receive_message_error e q he
  refine ⟨h, ?_, ?_, ?_⟩
  · rw [h]
  · rw [h]
  · rw [h]
    rfl

/-- C10 (witness): error code -1 while a send timer is pending. -/
theorem receive_error_frame_witness :
    receive_message (Except.error (-1)) ⟨[10000], false⟩
        = (⟨[10000], false⟩, [Obs.receiveError (-1)]) ∧
    (receive_message (Except.error (-1)) ⟨[10000], false⟩).1.pending
        = [10000] ∧
    (receive_message (Except.error (-1)) ⟨[10000], false⟩).1.broken = false ∧
    (receive_message (Except.error (-1)) ⟨[10000], false⟩).2.countP
        (fun o => isSendOutcome o) = 0 :=
  receive_error_frame ⟨[10000], false⟩ (-1) (by decide)

end LoraApp
